import Mathlib

/-!
A shallow embedding of the video-inference server (src/server.py): the
shared frame slots and their lock-protected copy-out reads, the body of
the inference loop (pacing, frame-skip counter, downscale, detector
call, publish), the MJPEG segment builder, startup device selection and
the camera-open check, the CPU auto-tune block, and the telemetry
fallback helper.  Machine arithmetic is modelled with Nat/Int/Rat;
fallible code returns Option or Except.
-/

namespace Server

/-- Interpolation modes passed to cv2.resize. -/
inductive Interp where
  | inter_area
  | inter_linear
deriving DecidableEq

/-- A video frame, abstracted to its pixel dimensions plus the list of
interpolations that produced it (most recent first), so that which
resampling filter a resize used is observable on the result. -/
structure Frame where
  width : Nat
  height : Nat
  interps : List Interp
deriving DecidableEq

/-- Python int() applied to a rational: truncation toward zero. -/
def pyInt (q : ℚ) : ℤ := if q < 0 then -⌊-q⌋ else ⌊q⌋

/-- Model of cv2.resize(frame, dsize, interpolation): the result has the
requested dimensions and records the interpolation used. -/
def cv2_resize (f : Frame) (w h : ℤ) (i : Interp) : Frame :=
  { width := w.toNat, height := h.toNat, interps := i :: f.interps }

/-- resize_if_needed (server.py lines 119-127): when IMG_MAX_WIDTH is
truthy and the frame is wider, scale both dimensions by
IMG_MAX_WIDTH / width and resize with INTER_AREA; otherwise return the
frame unchanged. -/
def resize_if_needed (imgMaxWidth : Nat) (frame : Frame) : Frame :=
  if imgMaxWidth ≠ 0 ∧ imgMaxWidth < frame.width then
    let scale : ℚ := (imgMaxWidth : ℚ) / (frame.width : ℚ)
    cv2_resize frame (pyInt ((frame.width : ℚ) * scale))
      (pyInt ((frame.height : ℚ) * scale)) Interp.inter_area
  else frame

/-- min_interval = 1.0 / max(TARGET_INF_FPS, 1) in yolo_loop. -/
def min_interval_of (targetInfFps : Nat) : ℚ := 1 / ((max targetInfFps 1 : Nat) : ℚ)

/-- The pacing step at the top of yolo_loop: sleep_left =
min_interval - (now - prev_t), slept only when positive, so this is the
duration actually slept. -/
def pacing_sleep (min_interval prev now : ℚ) : ℚ :=
  let sleep_left := min_interval - (now - prev)
  if 0 < sleep_left then sleep_left else 0

/-- The timestamp stored into prev_t after the pacing sleep
(prev_t = time.time() runs right after the sleep; the sleep is modelled
as exact). -/
def pacing_next_prev (min_interval prev now : ℚ) : ℚ :=
  now + pacing_sleep min_interval prev now

/-- Raw pixel buffer contents of one frame. -/
abbrev FrameData := List Nat

/-- A reference to a pixel buffer (numpy arrays are reference values, so
copies versus aliases matter for the shared-slot reads). -/
abbrev Ref := Nat

/-- The store of allocated pixel buffers. -/
structure Heap where
  bufs : List FrameData
deriving DecidableEq

/-- Dereference a buffer. -/
def Heap.get (h : Heap) (r : Ref) : FrameData := h.bufs.getD r []

/-- Allocate a fresh buffer. -/
def Heap.alloc (h : Heap) (d : FrameData) : Heap × Ref :=
  (⟨h.bufs ++ [d]⟩, h.bufs.length)

/-- In-place mutation of an existing buffer (what a producer reusing its
frame buffer would do after publishing). -/
def Heap.setBuf (h : Heap) (r : Ref) (d : FrameData) : Heap := ⟨h.bufs.set r d⟩

/-- frame.copy(): allocate a fresh buffer holding the same pixels. -/
def copyFrame (h : Heap) (r : Ref) : Heap × Ref := h.alloc (h.get r)

/-- publish into a slot: `with lock: latest = frame` — the slot variable
is rebound to the new reference, unconditionally. -/
def publish (_slot : Option Ref) (r : Ref) : Option Ref := some r

/-- get_annot / get_raw (server.py lines 253-263): under the lock,
return None when the slot was never published, else latest.copy(). -/
def slot_read (h : Heap) (slot : Option Ref) : Heap × Option Ref :=
  match slot with
  | none => (h, none)
  | some r =>
    let hr := copyFrame h r
    (hr.1, some hr.2)

/-- ASCII byte values of a literal string. -/
def asciiBytes (s : String) : List Nat := s.toList.map Char.toNat

/-- Decimal digits of n, most significant first. -/
def decDigits (n : Nat) : List Nat :=
  if _h : n < 10 then [n] else decDigits (n / 10) ++ [n % 10]
termination_by n
decreasing_by
  exact Nat.div_lt_self (by omega) (by omega)

/-- Value denoted by a most-significant-first decimal digit list. -/
def digitsVal (ds : List Nat) : Nat := ds.foldl (fun a d => 10 * a + d) 0

/-- str(n).encode(): the ASCII bytes of the decimal numeral of n. -/
def natStrBytes (n : Nat) : List Nat := (decDigits n).map (fun d => d + 48)

/-- One multipart segment yielded by mjpeg_generator (server.py lines
148-153): boundary line, content-type header, content-length header
carrying str(len(jpg)), blank line, the image bytes, trailing CRLF. -/
def mjpeg_segment (jpg : List Nat) : List Nat :=
  asciiBytes "--frame\r\nContent-Type: image/jpeg\r\nContent-Length: "
    ++ natStrBytes jpg.length ++ asciiBytes "\r\n\r\n" ++ jpg ++ asciiBytes "\r\n"

/-- encode_jpeg (server.py lines 129-136): try the TurboJPEG encoder
when present (falling through to OpenCV if it raises), else OpenCV
imencode, which may itself fail (returns None for a failed tick). -/
def encode_jpeg (turbo : Option (FrameData → Option (List Nat)))
    (cvEncode : FrameData → Option (List Nat)) (img : FrameData) :
    Option (List Nat) :=
  match turbo with
  | some enc =>
    match enc img with
    | some b => some b
    | none => cvEncode img
  | none => cvEncode img

/-- Outcome of one iteration of the mjpeg_generator body. -/
inductive MjpegTick where
  | backoff
  | skipTick
  | emit (segment : List Nat)
deriving DecidableEq

/-- One iteration of the mjpeg_generator while-loop: slot empty means a
5 ms backoff with no emission; a failed encode skips the tick; otherwise
one multipart segment is emitted. -/
def mjpeg_tick (turbo : Option (FrameData → Option (List Nat)))
    (cvEncode : FrameData → Option (List Nat))
    (frame : Option FrameData) : MjpegTick :=
  match frame with
  | none => MjpegTick.backoff
  | some f =>
    match encode_jpeg turbo cvEncode f with
    | none => MjpegTick.skipTick
    | some jpg => MjpegTick.emit (mjpeg_segment jpg)

/-- Mutable state of yolo_loop relevant to one iteration. -/
structure LoopState where
  counter : Nat
  latest_raw : Option Frame
  latest_annot : Option Frame
deriving DecidableEq

/-- Result of one yolo_loop iteration: either the loop reaches its next
iteration with an updated state (and a flag recording whether the
detector was invoked), or an exception escaped the loop body. -/
inductive IterResult where
  | next (s : LoopState) (inferred : Bool)
  | crashed (s : LoopState) (e : String)
deriving DecidableEq

/-- The loop state carried out of an iteration. -/
def IterResult.state : IterResult → LoopState
  | IterResult.next s _ => s
  | IterResult.crashed s _ => s

/-- Whether the detector was invoked during the iteration. -/
def IterResult.invoked : IterResult → Bool
  | IterResult.next _ b => b
  | IterResult.crashed _ _ => true

/-- The body of one yolo_loop iteration after the pacing sleep
(server.py lines 191-221): copy the freshest raw frame under the lock
(empty slot: back off, continue, counter untouched); increment the
counter; skip when FRAME_SKIP > 1 and counter mod FRAME_SKIP is not 0;
otherwise downscale and call the detector (model.predict plus plot and
the FPS overlay, abstracted as one external call that may raise).  The
source wraps none of this in try/except, so a detector error escapes
the loop body. -/
def yolo_iter (imgMaxWidth frameSkip : Nat)
    (detect : Frame → Except String Frame) (s : LoopState) : IterResult :=
  match s.latest_raw with
  | none => IterResult.next s false
  | some frame =>
    let counter := s.counter + 1
    if 1 < frameSkip ∧ counter % frameSkip ≠ 0 then
      IterResult.next { s with counter := counter } false
    else
      match detect (resize_if_needed imgMaxWidth frame) with
      | Except.error e => IterResult.crashed { s with counter := counter } e
      | Except.ok annotated =>
        IterResult.next
          { s with counter := counter, latest_annot := some annotated } true

/-- Compute devices the model can be moved to. -/
inductive Device where
  | cuda
  | cpu
deriving DecidableEq

/-- Startup device decision (server.py lines 52-64): CUDA exactly when
USE_CUDA is set and torch reports a GPU; otherwise CPU.  There is no
failing branch. -/
def select_device (useCuda gpuAvailable : Bool) : Device :=
  if useCuda && gpuAvailable then Device.cuda else Device.cpu

/-- The RuntimeError message raised when the camera cannot be opened. -/
def cameraErrMsg : String := "[ERROR] Could not open camera index 2"

/-- Startup sequence relevant to fatal failures: device selection
(never raises), then the cv2.VideoCapture isOpened check (server.py
lines 97-99), which raises RuntimeError when the source is not open. -/
def startup (useCuda gpuAvailable camOpened : Bool) : Except String Device :=
  let dev := select_device useCuda gpuAvailable
  if camOpened then Except.ok dev else Except.error cameraErrMsg

/-- Configuration values adjusted by the CPU auto-tune block. -/
structure TunedConfig where
  imgMaxWidth : Nat
  frameSkip : Nat
deriving DecidableEq

/-- The CPU auto-tune block (server.py lines 84-92): when no GPU is in
use, IMG_MAX_WIDTH is lowered to 640 when truthy and above 640, and
FRAME_SKIP is raised to 2 when below 2. -/
def cpu_autotune (gpu : Bool) (imgMaxWidth frameSkip : Nat) : TunedConfig :=
  if gpu then ⟨imgMaxWidth, frameSkip⟩
  else
    let w := if imgMaxWidth ≠ 0 ∧ 640 < imgMaxWidth then 640 else imgMaxWidth
    let s := if frameSkip < 2 then 2 else frameSkip
    ⟨w, s⟩

/-- The value found under the requested field key of the last feed
entry, as Python sees it. -/
inductive FieldVal where
  | null
  | emptyStr
  | notNum (s : String)
  | num (q : ℚ)
deriving DecidableEq

/-- One entry of the upstream feeds list; fieldVal is none when the
requested field key is absent. -/
structure Feed where
  fieldVal : Option FieldVal
deriving DecidableEq

/-- Outcome of the upstream ThingSpeak request for one channel field:
the HTTP call timed out or raised, the payload was not a JSON object,
or a JSON object whose feeds key (when present) holds a list. -/
inductive Upstream where
  | timeout
  | malformed
  | ok (feeds? : Option (List Feed))
deriving DecidableEq

/-- get_latest_field (server.py lines 157-163): every raising path
(timeout, bad JSON, indexing an empty feeds list, float() on a
non-numeric string) and every absent or empty value collapses to 0.0;
only a numeric value of the field in the last feed entry is returned. -/
def get_latest_field (u : Upstream) : ℚ :=
  match u with
  | Upstream.timeout => 0
  | Upstream.malformed => 0
  | Upstream.ok feeds? =>
    let feeds := feeds?.getD [⟨none⟩]
    match feeds.getLast? with
    | none => 0
    | some feed =>
      match feed.fieldVal with
      | none => 0
      | some FieldVal.null => 0
      | some FieldVal.emptyStr => 0
      | some (FieldVal.notNum _) => 0
      | some (FieldVal.num q) => q

/-- The JSON body and status of the /sensor_data response. -/
structure SensorResponse where
  status : Nat
  field1 : ℚ
  field2 : ℚ
  field3 : ℚ
deriving DecidableEq

/-- The /sensor_data handler (server.py lines 243-249): jsonify of the
three channel values, an ordinary 200 response. -/
def sensor_data (u1 u2 u3 : Upstream) : SensorResponse :=
  ⟨200, get_latest_field u1, get_latest_field u2, get_latest_field u3⟩

/-- The failure outcomes named by the spec for one telemetry channel:
timeout, malformed payload, missing feeds key, empty feed list, missing
field, or a null, empty, or non-numeric value. -/
def isFailure : Upstream → Bool
  | Upstream.timeout => true
  | Upstream.malformed => true
  | Upstream.ok none => true
  | Upstream.ok (some feeds) =>
    match feeds.getLast? with
    | none => true
    | some feed =>
      match feed.fieldVal with
      | none => true
      | some FieldVal.null => true
      | some FieldVal.emptyStr => true
      | some (FieldVal.notNum _) => true
      | some (FieldVal.num _) => false

/-- pyInt of a natural-number cast is that number. -/
theorem pyInt_natCast (n : Nat) : pyInt (n : ℚ) = n := by
  have h0 : ¬((n : ℚ) < 0) := not_lt.mpr (by positivity)
  rw [pyInt, if_neg h0, Int.floor_natCast]

/-- resize_if_needed leaves a frame alone when it is not wider than the
cap. -/
theorem resize_if_needed_eq_self (m : Nat) (f : Frame) (hf : f.width ≤ m) :
    resize_if_needed m f = f := by
  rw [resize_if_needed, if_neg]
  rintro ⟨-, hlt⟩
  omega

/-- When the cap is positive and the frame wider, resize_if_needed
rescales both dimensions by m / width with INTER_AREA, and the new width
is exactly the cap. -/
theorem resize_if_needed_eq_of_lt (m : Nat) (f : Frame) (hm : 0 < m)
    (hf : m < f.width) :
    resize_if_needed m f =
      { width := m,
        height := (pyInt ((f.height : ℚ) * ((m : ℚ) / (f.width : ℚ)))).toNat,
        interps := Interp.inter_area :: f.interps } := by
  have hwpos : 0 < f.width := lt_trans hm hf
  have hw : (f.width : ℚ) ≠ 0 := by exact_mod_cast hwpos.ne'
  have hwidth : (f.width : ℚ) * ((m : ℚ) / (f.width : ℚ)) = (m : ℚ) := by
    field_simp
  rw [resize_if_needed, if_pos ⟨by omega, hf⟩, cv2_resize]
  rw [hwidth, pyInt_natCast]
  simp

/-- C8: the pre-inference downscale returns the frame unchanged when its
width does not exceed the (positive) configured max processing width,
and otherwise returns a frame whose width equals the cap (hence does not
exceed it), with both dimensions scaled by the same factor m / width
before truncation, using area-averaging interpolation. -/
theorem resize_if_needed_spec (m : Nat) (f : Frame) (hm : 0 < m) :
    (f.width ≤ m → resize_if_needed m f = f) ∧
    (m < f.width →
      (resize_if_needed m f).width = m ∧
      (resize_if_needed m f).width ≤ m ∧
      (resize_if_needed m f).width
        = (pyInt ((f.width : ℚ) * ((m : ℚ) / (f.width : ℚ)))).toNat ∧
      (resize_if_needed m f).height
        = (pyInt ((f.height : ℚ) * ((m : ℚ) / (f.width : ℚ)))).toNat ∧
      (resize_if_needed m f).interps = Interp.inter_area :: f.interps) := by
  refine ⟨resize_if_needed_eq_self m f, fun hf => ?_⟩
  have hw : (f.width : ℚ) ≠ 0 := by
    have : 0 < f.width := lt_trans hm hf
    exact_mod_cast this.ne'
  have hwidth : (f.width : ℚ) * ((m : ℚ) / (f.width : ℚ)) = (m : ℚ) := by
    field_simp
  rw [resize_if_needed_eq_of_lt m f hm hf]
  refine ⟨rfl, le_refl m, ?_, rfl, rfl⟩
  rw [hwidth, pyInt_natCast]
  simp

/-- Concrete instance of resize_if_needed_spec at the CPU-tuned cap:
a 960x480 frame is downscaled to width 640. -/
theorem resize_if_needed_spec_witness :
    (resize_if_needed 640 ⟨960, 480, []⟩).width = 640 :=
  ((resize_if_needed_spec 640 ⟨960, 480, []⟩ (by norm_num)).2 (by norm_num)).1

/-- C3: each yolo_loop iteration sleeps exactly
max(0, 1/R_inf - (now - prev_t)); the sleep is never negative; and when
the elapsed time already exceeds the 1/R_inf budget the loop proceeds
immediately and resets its reference time to now, so no deficit is
carried into later iterations. -/
theorem pacing_spec (fps : Nat) (prev now : ℚ) (hfps : 1 ≤ fps) :
    min_interval_of fps = 1 / (fps : ℚ) ∧
    pacing_sleep (min_interval_of fps) prev now
      = max 0 (1 / (fps : ℚ) - (now - prev)) ∧
    0 ≤ pacing_sleep (min_interval_of fps) prev now ∧
    (1 / (fps : ℚ) ≤ now - prev →
      pacing_sleep (min_interval_of fps) prev now = 0 ∧
      pacing_next_prev (min_interval_of fps) prev now = now) := by
  have hmax : (max fps 1 : Nat) = fps := Nat.max_eq_left hfps
  have hmi : min_interval_of fps = 1 / (fps : ℚ) := by
    rw [min_interval_of, hmax]
  have hsleep : pacing_sleep (min_interval_of fps) prev now
      = max 0 (1 / (fps : ℚ) - (now - prev)) := by
    simp only [pacing_sleep, hmi]
    rcases lt_or_le 0 (1 / (fps : ℚ) - (now - prev)) with h | h
    · rw [if_pos h, max_eq_right h.le]
    · rw [if_neg (not_lt.mpr h), max_eq_left h]
  refine ⟨hmi, hsleep, ?_, fun hover => ?_⟩
  · rw [hsleep]; exact le_max_left 0 _
  · have hz : pacing_sleep (min_interval_of fps) prev now = 0 := by
      rw [hsleep, max_eq_left (by linarith)]
    exact ⟨hz, by rw [pacing_next_prev, hz, add_zero]⟩

/-- Concrete instance of pacing_spec: at 30 FPS with a full second
already elapsed, the loop does not sleep and resets its clock to now. -/
theorem pacing_spec_witness :
    pacing_sleep (min_interval_of 30) 0 1 = 0 ∧
    pacing_next_prev (min_interval_of 30) 0 1 = 1 :=
  (pacing_spec 30 0 1 (by norm_num)).2.2.2 (by norm_num)

/-- Appending a buffer and reading it back at the old length. -/
theorem getD_append_length (l : List FrameData) (x : FrameData) :
    (l ++ [x]).getD l.length [] = x := by
  induction l with
  | nil => rfl
  | cons a t _ => simp [List.getD]

/-- Reading below the old length is unaffected by the append. -/
theorem getD_append_lt (l : List FrameData) (x : FrameData) (i : Nat)
    (hi : i < l.length) :
    (l ++ [x]).getD i [] = l.getD i [] := by
  induction l generalizing i with
  | nil => simp at hi
  | cons a t ih =>
    cases i with
    | zero => rfl
    | succ j => simpa [List.getD] using ih j (by simpa using hi)

/-- Setting one index leaves reads at a different index unchanged. -/
theorem getD_set_ne (l : List FrameData) (i j : Nat) (d : FrameData)
    (hij : i ≠ j) :
    (l.set i d).getD j [] = l.getD j [] := by
  induction l generalizing i j with
  | nil => rfl
  | cons a t ih =>
    cases i with
    | zero =>
      cases j with
      | zero => omega
      | succ k => rfl
    | succ i' =>
      cases j with
      | zero => rfl
      | succ k => simpa [List.getD] using ih i' k (by omega)

/-- C2: a slot never published to reads as Empty and the multiplexer
skips that tick without emitting; after a publish, read returns a fresh
copy whose contents equal the most recently published buffer, and that
copy is unaffected by the publisher later overwriting the original
buffer. -/
theorem slot_read_spec (h : Heap) (slot : Option Ref) (r : Ref)
    (d : FrameData) (turbo : Option (FrameData → Option (List Nat)))
    (cvEnc : FrameData → Option (List Nat)) (hr : r < h.bufs.length) :
    slot_read h none = (h, none) ∧
    mjpeg_tick turbo cvEnc none = MjpegTick.backoff ∧
    (slot_read h (publish slot r)).2 = some h.bufs.length ∧
    (slot_read h (publish slot r)).1.get h.bufs.length = h.get r ∧
    ((slot_read h (publish slot r)).1.setBuf r d).get h.bufs.length
      = h.get r := by
  refine ⟨rfl, rfl, rfl, ?_, ?_⟩
  · simp only [slot_read, publish, copyFrame, Heap.alloc, Heap.get]
    exact getD_append_length h.bufs (h.bufs.getD r [])
  · simp only [slot_read, publish, copyFrame, Heap.alloc, Heap.get,
      Heap.setBuf]
    rw [getD_set_ne _ r h.bufs.length _ (Nat.ne_of_lt hr)]
    exact getD_append_length h.bufs (h.bufs.getD r [])

/-- Concrete instance of slot_read_spec: one published buffer [5], read
back as a copy at reference 1, surviving an overwrite of buffer 0. -/
theorem slot_read_spec_witness :
    ((slot_read ⟨[[5]]⟩ (publish none 0)).1.setBuf 0 [9]).get 1
      = Heap.get ⟨[[5]]⟩ 0 :=
  (slot_read_spec ⟨[[5]]⟩ none 0 [9] none (fun _ => none)
    (by norm_num)).2.2.2.2

/-- C1 is refuted by the code: with a raw frame available, a counter
value about to pass the skip check, and a detector call that raises, the
exception escapes the yolo_loop body (there is no try/except around
model.predict), terminating the inference thread instead of dropping the
frame and continuing. -/
theorem yolo_iter_detector_failure_crashes :
    yolo_iter 640 2 (fun _ => Except.error "CUDA error")
        { counter := 1, latest_raw := some ⟨640, 480, []⟩,
          latest_annot := none }
      = IterResult.crashed
          { counter := 2, latest_raw := some ⟨640, 480, []⟩,
            latest_annot := none }
          "CUDA error" := by
  rfl

/-- C4 counterexample: a paced iteration whose raw slot is empty leaves
the counter unchanged (0, not 0 + 1), so the counter is not incremented
once per paced iteration. -/
theorem yolo_iter_counter_counterexample :
    yolo_iter 640 2 (fun f => Except.ok f)
        { counter := 0, latest_raw := none, latest_annot := none }
      = IterResult.next
          { counter := 0, latest_raw := none, latest_annot := none }
          false ∧
    (yolo_iter 640 2 (fun f => Except.ok f)
        { counter := 0, latest_raw := none,
          latest_annot := none }).state.counter ≠ 0 + 1 := by
  exact ⟨rfl, by decide⟩

/-- On an iteration that acquires a frame, the counter advances by one
regardless of the skip check and the detector outcome. -/
theorem yolo_iter_counter_succ (w n : Nat)
    (detect : Frame → Except String Frame) (s : LoopState) (f : Frame)
    (hf : s.latest_raw = some f) :
    (yolo_iter w n detect s).state.counter = s.counter + 1 := by
  rw [yolo_iter, hf]
  dsimp only
  split
  · rfl
  · rcases detect (resize_if_needed w f) with e | a <;> rfl

/-- On an iteration that acquires a frame, the detector is invoked
exactly when the skip factor is at most 1 or the incremented counter is
divisible by it. -/
theorem yolo_iter_invoked_iff (w n : Nat)
    (detect : Frame → Except String Frame) (s : LoopState) (f : Frame)
    (hf : s.latest_raw = some f) :
    ((yolo_iter w n detect s).invoked = true ↔
      n ≤ 1 ∨ (s.counter + 1) % n = 0) := by
  rw [yolo_iter, hf]
  dsimp only
  split
  · rename_i hcond
    refine iff_of_false (by simp [IterResult.invoked]) ?_
    rcases hcond with ⟨h1, h2⟩
    rintro (h3 | h3)
    · omega
    · exact h2 h3
  · rename_i hcond
    have hor : n ≤ 1 ∨ (s.counter + 1) % n = 0 := by
      by_cases h1 : 1 < n
      · right
        by_contra h2
        exact hcond ⟨h1, h2⟩
      · left; omega
    rcases detect (resize_if_needed w f) with e | a
    · exact iff_of_true rfl hor
    · exact iff_of_true rfl hor

/-- C4 amended: the counter is incremented once per paced iteration that
acquires a frame (empty-slot iterations leave it untouched), and on such
iterations inference happens exactly when the skip factor N is at most 1
or the incremented counter is divisible by N. -/
theorem yolo_iter_skip_spec (w n : Nat)
    (detect : Frame → Except String Frame) (s : LoopState) (f : Frame)
    (hf : s.latest_raw = some f) :
    (yolo_iter w n detect s).state.counter = s.counter + 1 ∧
    ((yolo_iter w n detect s).invoked = true ↔
      n ≤ 1 ∨ (s.counter + 1) % n = 0) :=
  ⟨yolo_iter_counter_succ w n detect s f hf,
   yolo_iter_invoked_iff w n detect s f hf⟩

/-- Concrete instance of yolo_iter_skip_spec: with FRAME_SKIP = 2 and
counter advancing from 0 to 1, the iteration is skipped. -/
theorem yolo_iter_skip_spec_witness :
    (yolo_iter 640 2 (fun f => Except.ok f)
        { counter := 0, latest_raw := some ⟨640, 480, []⟩,
          latest_annot := none }).state.counter = 0 + 1 ∧
    ((yolo_iter 640 2 (fun f => Except.ok f)
        { counter := 0, latest_raw := some ⟨640, 480, []⟩,
          latest_annot := none }).invoked = true ↔
      2 ≤ 1 ∨ (0 + 1) % 2 = 0) :=
  yolo_iter_skip_spec 640 2 (fun f => Except.ok f)
    { counter := 0, latest_raw := some ⟨640, 480, []⟩,
      latest_annot := none } ⟨640, 480, []⟩ rfl

/-- Every entry produced by decDigits is a decimal digit. -/
theorem decDigits_lt_ten (n : Nat) : ∀ d ∈ decDigits n, d < 10 := by
  induction n using Nat.strong_induction_on with
  | _ n ih =>
    rw [decDigits]
    split
    · rename_i h
      intro d hd
      simp at hd
      omega
    · rename_i h
      intro d hd
      rcases List.mem_append.mp hd with h1 | h1
      · exact ih (n / 10) (Nat.div_lt_self (by omega) (by omega)) d h1
      · simp at h1
        omega

/-- digitsVal over a snoc peels the least significant digit. -/
theorem digitsVal_append_single (ds : List Nat) (d : Nat) :
    digitsVal (ds ++ [d]) = 10 * digitsVal ds + d := by
  simp [digitsVal, List.foldl_append]

/-- The decimal digit list of n denotes n. -/
theorem digitsVal_decDigits (n : Nat) : digitsVal (decDigits n) = n := by
  induction n using Nat.strong_induction_on with
  | _ n ih =>
    rw [decDigits]
    split
    · simp [digitsVal]
    · rename_i h
      rw [digitsVal_append_single,
        ih (n / 10) (Nat.div_lt_self (by omega) (by omega))]
      omega

/-- The literal header bytes split at the line boundaries. -/
theorem header_bytes_split :
    asciiBytes "--frame\r\nContent-Type: image/jpeg\r\nContent-Length: "
      = asciiBytes "--frame\r\n" ++ asciiBytes "Content-Type: image/jpeg\r\n"
        ++ asciiBytes "Content-Length: " := by
  decide

/-- The blank-line bytes split into two CRLFs. -/
theorem crlf_crlf_split :
    asciiBytes "\r\n\r\n" = asciiBytes "\r\n" ++ asciiBytes "\r\n" := by
  decide

/-- C5: every segment emitted for either feed is the boundary line, a
content-type header, a content-length header whose decimal digits denote
exactly the number of image bytes carried in this same segment, a blank
line, those image bytes, and a trailing delimiter. -/
theorem mjpeg_segment_spec (jpg : List Nat) :
    ∃ digits : List Nat,
      mjpeg_segment jpg =
        asciiBytes "--frame\r\n" ++ asciiBytes "Content-Type: image/jpeg\r\n"
          ++ asciiBytes "Content-Length: " ++ digits ++ asciiBytes "\r\n"
          ++ asciiBytes "\r\n" ++ jpg ++ asciiBytes "\r\n" ∧
      digitsVal (digits.map (fun c => c - 48)) = jpg.length ∧
      ∀ c ∈ digits, 48 ≤ c ∧ c ≤ 57 := by
  refine ⟨natStrBytes jpg.length, ?_, ?_, ?_⟩
  · rw [mjpeg_segment, header_bytes_split, crlf_crlf_split]
    simp [List.append_assoc]
  · rw [natStrBytes, List.map_map]
    have hcomp : ((fun c => c - 48) ∘ fun d => d + 48) = id := by
      funext d
      simp
    rw [hcomp, List.map_id, digitsVal_decDigits]
  · intro c hc
    rw [natStrBytes] at hc
    rcases List.mem_map.mp hc with ⟨d, hd, rfl⟩
    have := decDigits_lt_ten jpg.length d hd
    omega

/-- C6 counterexample: with CUDA requested (USE_CUDA=1), no GPU present,
and the camera opening fine, startup completes successfully on CPU — the
process runs on the fallback device rather than failing fast. -/
theorem startup_gpu_fallback :
    startup true false true = Except.ok Device.cpu ∧
    Device.cpu ≠ Device.cuda :=
  ⟨rfl, by decide⟩

/-- C6 amended: an unopenable video source aborts startup with the
RuntimeError diagnostic; with an open source the process starts on the
selected device; and when CUDA is requested but unavailable, device
selection silently falls back to CPU instead of failing. -/
theorem startup_spec (useCuda gpuAvailable : Bool) :
    startup useCuda gpuAvailable false = Except.error cameraErrMsg ∧
    startup useCuda gpuAvailable true
      = Except.ok (select_device useCuda gpuAvailable) ∧
    select_device useCuda false = Device.cpu := by
  refine ⟨rfl, rfl, ?_⟩
  cases useCuda <;> rfl

/-- A failed telemetry channel yields the neutral default 0. -/
theorem get_latest_field_eq_zero (u : Upstream) (hu : isFailure u = true) :
    get_latest_field u = 0 := by
  cases u with
  | timeout => rfl
  | malformed => rfl
  | ok feeds? =>
    cases feeds? with
    | none => rfl
    | some feeds =>
      simp only [get_latest_field, isFailure, Option.getD] at hu ⊢
      cases hl : feeds.getLast? with
      | none => simp [hl]
      | some feed =>
        simp only [hl] at hu ⊢
        cases hv : feed.fieldVal with
        | none => simp [hv]
        | some v =>
          cases v with
          | null => simp [hv]
          | emptyStr => simp [hv]
          | notNum s => simp [hv]
          | num q =>
            rw [hv] at hu
            simp at hu

/-- C7: /sensor_data always answers 200 (never a 5xx) with all three
fixed numeric fields present, and every failed channel reads the neutral
default 0 rather than an error. -/
theorem sensor_data_spec (u1 u2 u3 : Upstream) :
    (sensor_data u1 u2 u3).status = 200 ∧
    (sensor_data u1 u2 u3).status < 500 ∧
    (isFailure u1 = true → (sensor_data u1 u2 u3).field1 = 0) ∧
    (isFailure u2 = true → (sensor_data u1 u2 u3).field2 = 0) ∧
    (isFailure u3 = true → (sensor_data u1 u2 u3).field3 = 0) :=
  ⟨rfl, by norm_num [sensor_data], fun h => get_latest_field_eq_zero u1 h,
   fun h => get_latest_field_eq_zero u2 h,
   fun h => get_latest_field_eq_zero u3 h⟩

/-- Concrete instance of sensor_data_spec: a timeout, an empty feed
list, and a missing field all default to 0 inside a 200 response. -/
theorem sensor_data_spec_witness :
    (sensor_data Upstream.timeout (Upstream.ok (some []))
        (Upstream.ok (some [⟨none⟩]))).status = 200 ∧
    (sensor_data Upstream.timeout (Upstream.ok (some []))
        (Upstream.ok (some [⟨none⟩]))).field1 = 0 ∧
    (sensor_data Upstream.timeout (Upstream.ok (some []))
        (Upstream.ok (some [⟨none⟩]))).field2 = 0 ∧
    (sensor_data Upstream.timeout (Upstream.ok (some []))
        (Upstream.ok (some [⟨none⟩]))).field3 = 0 := by
  have h := sensor_data_spec Upstream.timeout (Upstream.ok (some []))
    (Upstream.ok (some [⟨none⟩]))
  exact ⟨h.1, h.2.2.1 (by decide), h.2.2.2.1 (by decide),
    h.2.2.2.2 (by decide)⟩

/-- C10: on CPU the startup auto-tune lowers a configured max width
above 640 to exactly 640 and leaves smaller (positive) values alone,
raises a skip factor below 2 to 2 so the tuned factor is at least 2,
and consequently inference never runs on two consecutive
frame-acquiring iterations and any frame wider than 640 pixels is
downscaled to a width of at most 640. -/
theorem cpu_autotune_spec (gpu : Bool) (w s : Nat) (hg : gpu = false)
    (hw : 0 < w) :
    ((cpu_autotune gpu w s).imgMaxWidth = if 640 < w then 640 else w) ∧
    ((cpu_autotune gpu w s).frameSkip = if s < 2 then 2 else s) ∧
    (640 < w → (cpu_autotune gpu w s).imgMaxWidth = 640) ∧
    (s < 2 → (cpu_autotune gpu w s).frameSkip = 2) ∧
    2 ≤ (cpu_autotune gpu w s).frameSkip ∧
    (∀ detect : Frame → Except String Frame, ∀ f : Frame,
      ∀ s1 s2 : LoopState, s1.latest_raw = some f →
      s2.latest_raw = some f → s2.counter = s1.counter + 1 →
      ¬((yolo_iter (cpu_autotune gpu w s).imgMaxWidth
            (cpu_autotune gpu w s).frameSkip detect s1).invoked = true ∧
        (yolo_iter (cpu_autotune gpu w s).imgMaxWidth
            (cpu_autotune gpu w s).frameSkip detect s2).invoked = true)) ∧
    (∀ f : Frame, 640 < f.width →
      (resize_if_needed (cpu_autotune gpu w s).imgMaxWidth f).width
        ≤ 640) := by
  subst hg
  have e1 : (cpu_autotune false w s).imgMaxWidth
      = if w ≠ 0 ∧ 640 < w then 640 else w := rfl
  have e2 : (cpu_autotune false w s).frameSkip
      = if s < 2 then 2 else s := rfl
  have c1 : (cpu_autotune false w s).imgMaxWidth
      = if 640 < w then 640 else w := by
    rw [e1]
    split_ifs <;> omega
  have c5 : 2 ≤ (cpu_autotune false w s).frameSkip := by
    rw [e2]
    split_ifs <;> omega
  have cm : 0 < (cpu_autotune false w s).imgMaxWidth ∧
      (cpu_autotune false w s).imgMaxWidth ≤ 640 := by
    rw [c1]
    split_ifs <;> omega
  refine ⟨c1, e2, ?_, ?_, c5, ?_, ?_⟩
  · intro h
    rw [c1, if_pos h]
  · intro h
    rw [e2, if_pos h]
  · intro detect f s1 s2 h1 h2 hc hcontra
    rcases hcontra with ⟨i1, i2⟩
    rw [yolo_iter_invoked_iff _ _ detect s1 f h1] at i1
    rw [yolo_iter_invoked_iff _ _ detect s2 f h2] at i2
    have i1' : (s1.counter + 1) % (cpu_autotune false w s).frameSkip = 0 := by
      rcases i1 with h | h
      · exact absurd c5 (by omega)
      · exact h
    have i2' : (s1.counter + 1 + 1) % (cpu_autotune false w s).frameSkip
        = 0 := by
      rcases i2 with h | h
      · exact absurd c5 (by omega)
      · rw [hc] at h
        exact h
    have d1 := Nat.dvd_of_mod_eq_zero i1'
    have d2 := Nat.dvd_of_mod_eq_zero i2'
    have hsub := Nat.dvd_sub' d2 d1
    have hone : s1.counter + 1 + 1 - (s1.counter + 1) = 1 := by omega
    rw [hone] at hsub
    have hle := Nat.le_of_dvd Nat.one_pos hsub
    omega
  · intro f hf
    have hlt : (cpu_autotune false w s).imgMaxWidth < f.width :=
      lt_of_le_of_lt cm.2 hf
    rw [resize_if_needed_eq_of_lt _ f cm.1 hlt]
    exact cm.2

/-- Concrete instance of cpu_autotune_spec at the source configuration
(IMG_MAX_WIDTH = 960, FRAME_SKIP = 2) with no GPU. -/
theorem cpu_autotune_spec_witness :
    (cpu_autotune false 960 2).imgMaxWidth = 640 ∧
    2 ≤ (cpu_autotune false 960 2).frameSkip := by
  have h := cpu_autotune_spec false 960 2 rfl (by norm_num)
  exact ⟨h.2.2.1 (by norm_num), h.2.2.2.2.1⟩

end Server
